import Mathlib

/-!
Shallow embedding of the authentication core of the Task_Manager backend
(`src/middleware/auth.js`, `src/routes/auth.js`, startup bootstrap in the
server entry file).  Pure-JS handlers become Lean functions over an explicit
identity store; the `jsonwebtoken` library is modelled symbolically; the
`bcryptjs` hasher and the `models/User.js` schema methods (not present among
the sources) are modelled from the spec where noted.
-/

/-- Identifier of a stored identity (`_id` in Mongo). -/
abbrev UserId := Nat

/-- Closed role enumeration from the User schema. -/
inductive Role
  | admin
  | user
deriving DecidableEq, BEq

/-- A stored identity record (the User document fields the auth core reads). -/
structure Identity where
  id : UserId
  name : String
  email : String
  passwordHash : String
  role : Role
  active : Bool
  passwordChangedAt : Option Nat
deriving DecidableEq

/-- The identity store: the Mongo `users` collection as a list of records. -/
abbrev Store := List Identity

/-- `User.findById(id)` / `User.findOne({_id: id})`. -/
def findById (s : Store) (i : UserId) : Option Identity :=
  s.find? (fun u => u.id == i)

/-- `User.findOne({email})`. -/
def findByEmail (s : Store) (e : String) : Option Identity :=
  s.find? (fun u => u.email == e)

/-- `User.findOne({_id: id, active: true})` as used by the auth middleware. -/
def findActiveById (s : Store) (i : UserId) : Option Identity :=
  s.find? (fun u => u.id == i && u.active)

/-- `User.findOne({role: 'admin'})`. -/
def findAdmin (s : Store) : Option Identity :=
  s.find? (fun u => u.role == Role.admin)

/-- Replace the identity with `u.id` in the store (`user.save()` on a loaded
document writes the mutated document back under its id). -/
def saveUser (s : Store) (u : Identity) : Store :=
  s.map (fun v => if v.id == u.id then u else v)

/-- Modelled from the spec: the Password Hasher (bcrypt via the missing
`models/User.js` pre-save hook) — a salted one-way digest, here symbolic and
injective.  `hash(plaintext) -> hash`. -/
def hashPassword (plaintext : String) : String :=
  "bcrypt$" ++ plaintext

/-- Modelled from the spec: `verify(plaintext, hash) -> bool` recomputes and
compares; this is `userSchema.methods.comparePassword` of the missing
`models/User.js`. -/
def comparePassword (u : Identity) (plaintext : String) : Bool :=
  hashPassword plaintext == u.passwordHash

/-- Modelled from the spec: `userSchema.methods.changedPasswordAfter(iat)` of
the missing `models/User.js` — true when `passwordChangedAt` is set and is
later than the token issue time. -/
def changedPasswordAfter (u : Identity) (iat : Nat) : Bool :=
  match u.passwordChangedAt with
  | some t => iat < t
  | none => false

/-- The two JWT secrets from the environment (`JWT_SECRET`,
`JWT_REFRESH_SECRET`). -/
structure Config where
  jwtSecret : String
  jwtRefreshSecret : String
deriving DecidableEq

/-- A signed JWT as the `jsonwebtoken` library produces it for this app:
payload `{userId}`, claims `iat`/`exp`, and the signing secret standing in
for the signature. -/
structure Token where
  userId : UserId
  iat : Nat
  exp : Nat
  secret : String
deriving DecidableEq

/-- Outcome of `jwt.verify`. -/
inductive VerifyResult
  | ok (userId : UserId) (iat : Nat)
  | err (message : String)
deriving DecidableEq

/-- `jwt.verify(token, secret)` at time `now`: signature is checked first
(`JsonWebTokenError: invalid signature`), then expiry
(`TokenExpiredError: jwt expired`); on success the decoded payload carries
`userId` and `iat`. -/
def jwtVerify (t : Token) (secret : String) (now : Nat) : VerifyResult :=
  if t.secret != secret then .err "invalid signature"
  else if t.exp ≤ now then .err "jwt expired"
  else .ok t.userId t.iat

/-- The two token kinds. -/
inductive TokenType
  | access
  | refresh
deriving DecidableEq, BEq

/-- `generateToken(userId, type)` from `src/routes/auth.js:19-24`: refresh
tokens use `JWT_REFRESH_SECRET` and live 7 days, access tokens use
`JWT_SECRET` and live 1 hour (in seconds here). -/
def generateToken (cfg : Config) (userId : UserId) (type : TokenType) (now : Nat) : Token :=
  let secret := if type == TokenType.refresh then cfg.jwtRefreshSecret else cfg.jwtSecret
  let expiresIn := if type == TokenType.refresh then 7 * 24 * 3600 else 3600
  { userId := userId, iat := now, exp := now + expiresIn, secret := secret }

/-- Verifying a presented token as a given kind: the app verifies access
tokens against `JWT_SECRET` (middleware) and refresh tokens against
`JWT_REFRESH_SECRET` (refresh handler). -/
def verifyAsKind (cfg : Config) (t : Token) (k : TokenType) (now : Nat) : VerifyResult :=
  jwtVerify t (if k == TokenType.refresh then cfg.jwtRefreshSecret else cfg.jwtSecret) now

/-- The `Authorization` header as the middleware classifies it. -/
inductive AuthHeader
  | missing
  | malformed
  | bearer (t : Token)
deriving DecidableEq

/-- Outcome of the auth middleware: proceed with the resolved identity and
raw token attached to the request, or reject with an HTTP status and
message. -/
inductive AuthOutcome
  | proceed (user : Identity) (token : Token)
  | reject (status : Nat) (message : String)
deriving DecidableEq

/-- HTTP status of a middleware outcome (200 standing for "proceeded"). -/
def authStatus : AuthOutcome → Nat
  | .proceed _ _ => 200
  | .reject s _ => s

/-- Message of a middleware outcome (empty when it proceeded). -/
def authMessage : AuthOutcome → String
  | .proceed _ _ => ""
  | .reject _ m => m

/-- The auth middleware (`src/middleware/auth.js:4-45`): require a
`Bearer` header, verify the token with `JWT_SECRET`, load the identity with
`{_id, active: true}`, reject when the password changed after the token was
issued; every thrown error is caught and mapped to a 401 whose body carries
the error's message. -/
def auth (cfg : Config) (store : Store) (h : AuthHeader) (now : Nat) : AuthOutcome :=
  match h with
  | .missing => .reject 401 "Invalid authorization header format"
  | .malformed => .reject 401 "Invalid authorization header format"
  | .bearer t =>
    match jwtVerify t cfg.jwtSecret now with
    | .err m => .reject 401 m
    | .ok userId iat =>
      match findActiveById store userId with
      | none => .reject 401 "User not found or deactivated"
      | some user =>
        if user.passwordChangedAt.isSome && changedPasswordAfter user iat then
          .reject 401 "User recently changed password. Please log in again"
        else
          .proceed user t

/-- JS falsiness of an optional string body field (`!x` is true for a
missing field and for the empty string). -/
def falsy : Option String → Bool
  | none => true
  | some s => s == ""

/-- Result of the login route. -/
structure LoginResult where
  status : Nat
  error : Option String
  accessToken : Option Token
  refreshCookie : Option Token
deriving DecidableEq

/-- `POST /login` (`src/routes/auth.js:75-125`): look up by email, reject a
missing user with `Invalid credentials`, a deactivated user with
`Account is deactivated`, a failed password comparison with
`Invalid credentials`; on success issue one access and one refresh token,
the latter set as the `refreshToken` cookie. -/
def login (cfg : Config) (store : Store) (email password : Option String) (now : Nat) :
    LoginResult :=
  if falsy email || falsy password then
    { status := 400, error := some "Email and password are required",
      accessToken := none, refreshCookie := none }
  else
    match findByEmail store (email.getD "") with
    | none =>
      { status := 401, error := some "Invalid credentials",
        accessToken := none, refreshCookie := none }
    | some user =>
      if !user.active then
        { status := 401, error := some "Account is deactivated",
          accessToken := none, refreshCookie := none }
      else if !(comparePassword user (password.getD "")) then
        { status := 401, error := some "Invalid credentials",
          accessToken := none, refreshCookie := none }
      else
        { status := 200, error := none,
          accessToken := some (generateToken cfg user.id TokenType.access now),
          refreshCookie := some (generateToken cfg user.id TokenType.refresh now) }

/-- Result of the refresh route. -/
structure RefreshResult where
  status : Nat
  error : Option String
  accessToken : Option Token
deriving DecidableEq

/-- `POST /refresh-token` (`src/routes/auth.js:128-151`): read the cookie,
verify it with `JWT_REFRESH_SECRET`, load the identity by id, require it to
exist and be active, and mint a fresh access token.  Every failure — the
catch included — answers 401 `Invalid refresh token` (or
`No refresh token provided` when the cookie is absent).  The handler never
consults `passwordChangedAt`. -/
def refreshTokenRoute (cfg : Config) (store : Store) (cookie : Option Token) (now : Nat) :
    RefreshResult :=
  match cookie with
  | none => { status := 401, error := some "No refresh token provided", accessToken := none }
  | some rt =>
    match jwtVerify rt cfg.jwtRefreshSecret now with
    | .err _ => { status := 401, error := some "Invalid refresh token", accessToken := none }
    | .ok userId _ =>
      match findById store userId with
      | none => { status := 401, error := some "Invalid refresh token", accessToken := none }
      | some user =>
        if !user.active then
          { status := 401, error := some "Invalid refresh token", accessToken := none }
        else
          { status := 200, error := none,
            accessToken := some (generateToken cfg user.id TokenType.access now) }

/-- A JSON body value as the patch handlers receive them (strings for
name/email/password/role, booleans for active). -/
inductive Value
  | vStr (s : String)
  | vBool (b : Bool)
deriving DecidableEq

/-- A request body as a list of field-name/value pairs (`Object.keys` order). -/
abbrev Body := List (String × Value)

/-- The password strength regex of `POST /register`
(`src/routes/auth.js:37`): the character class `[A-Za-z\d@$!%*?&]` of the
anchored regex — letters, digits, and the fixed symbol set. -/
def isAllowedPasswordChar (c : Char) : Bool :=
  c.isAlpha || c.isDigit || c == '@' || c == '$' || c == '!' || c == '%' ||
    c == '*' || c == '?' || c == '&'

/-- One of the fixed symbols `@$!%*?&`. -/
def isSpecialChar (c : Char) : Bool :=
  c == '@' || c == '$' || c == '!' || c == '%' || c == '*' || c == '?' || c == '&'

/-- The full regex `^(?=.*[a-z])(?=.*[A-Z])(?=.*\d)(?=.*[@$!%*?&])[A-Za-z\d@$!%*?&]{8,}$`
as a predicate: length at least 8, every character from the allowed class,
and the four lookaheads. -/
def passwordRegexTest (p : String) : Bool :=
  decide (8 ≤ p.length) &&
    p.toList.all isAllowedPasswordChar &&
    p.toList.any Char.isLower &&
    p.toList.any Char.isUpper &&
    p.toList.any Char.isDigit &&
    p.toList.any isSpecialChar

/-- The strength predicate as the spec words it: minimum length 8, at least
one uppercase, one lowercase, one digit, one symbol from the fixed set
(it does not restrict the remaining characters). -/
def specStrong (p : String) : Bool :=
  decide (8 ≤ p.length) &&
    p.toList.any Char.isLower &&
    p.toList.any Char.isUpper &&
    p.toList.any Char.isDigit &&
    p.toList.any isSpecialChar

/-- Result of a store-mutating route: HTTP status, error body, and the store
after the request. -/
structure MutResult where
  status : Nat
  error : Option String
  store : Store
deriving DecidableEq

/-- `POST /register` handler body (`src/routes/auth.js:27-72`, after the
admin gate): require name/email/password, test the strength regex, reject a
duplicate email, then create the identity with default role `user`.  The
stored hash and the initially unset `passwordChangedAt` follow the spec's
User-model contract. -/
def register (store : Store) (name email password : Option String) (role : Option Role)
    (newId : UserId) : MutResult :=
  if falsy name || falsy email || falsy password then
    { status := 400, error := some "All fields are required", store := store }
  else if !passwordRegexTest (password.getD "") then
    { status := 400,
      error := some "Password must contain at least 8 characters, one uppercase letter, one lowercase letter, one number and one special character",
      store := store }
  else
    match findByEmail store (email.getD "") with
    | some _ => { status := 400, error := some "Email already registered", store := store }
    | none =>
      let u : Identity :=
        { id := newId, name := name.getD "", email := email.getD "",
          passwordHash := hashPassword (password.getD ""), role := role.getD Role.user,
          active := true, passwordChangedAt := none }
      { status := 201, error := none, store := store ++ [u] }

/-- Assignment `user[update] = req.body[update]` followed by `user.save()`:
name/email/role/active are stored as given; a password assignment is stored
hashed with `passwordChangedAt` set to the save time (modelled from the
spec's User-model contract: `passwordChangedAt`, a timestamp set whenever
`passwordHash` changes). -/
def setField (u : Identity) (now : Nat) (key : String) (v : Value) : Identity :=
  if key == "name" then
    match v with | .vStr s => { u with name := s } | _ => u
  else if key == "email" then
    match v with | .vStr s => { u with email := s } | _ => u
  else if key == "password" then
    match v with
    | .vStr s => { u with passwordHash := hashPassword s, passwordChangedAt := some now }
    | _ => u
  else if key == "role" then
    match v with
    | .vStr "admin" => { u with role := Role.admin }
    | .vStr "user" => { u with role := Role.user }
    | _ => u
  else if key == "active" then
    match v with | .vBool b => { u with active := b } | _ => u
  else u

/-- Allow-list of `PATCH /me` (`src/routes/auth.js:177`). -/
def allowedUpdatesMe : List String := ["name", "email", "password"]

/-- Allow-list of `PATCH /users/:userId` (`src/routes/auth.js:242`). -/
def allowedUpdatesAdmin : List String := ["name", "email", "password", "role", "active"]

/-- `updates.every(update => allowedUpdates.includes(update))`. -/
def isValidOperation (body : Body) (allowed : List String) : Bool :=
  (body.map Prod.fst).all (fun k => allowed.contains k)

/-- `PATCH /me` (`src/routes/auth.js:175-208`): reject wholesale with 400
`Invalid updates` when any body key is outside the allow-list, before any
lookup or mutation; otherwise load the caller, apply every field, save. -/
def patchMe (store : Store) (callerId : UserId) (body : Body) (now : Nat) : MutResult :=
  if !isValidOperation body allowedUpdatesMe then
    { status := 400, error := some "Invalid updates", store := store }
  else
    match findById store callerId with
    | none => { status := 404, error := some "User not found", store := store }
    | some user =>
      let user' := body.foldl (fun u kv => setField u now kv.1 kv.2) user
      { status := 200, error := none, store := saveUser store user' }

/-- `PATCH /users/:userId` (`src/routes/auth.js:240-274`): same shape with
the admin allow-list and an arbitrary target id. -/
def patchUserAdmin (store : Store) (userId : UserId) (body : Body) (now : Nat) : MutResult :=
  if !isValidOperation body allowedUpdatesAdmin then
    { status := 400, error := some "Invalid updates", store := store }
  else
    match findById store userId with
    | none => { status := 404, error := some "User not found", store := store }
    | some user =>
      let user' := body.foldl (fun u kv => setField u now kv.1 kv.2) user
      { status := 200, error := none, store := saveUser store user' }

/-- `DELETE /users/:userId` (`src/routes/auth.js:277-293`): load the target,
404 when absent, otherwise set `active = false` and save — a soft delete. -/
def deleteUserRoute (store : Store) (userId : UserId) : MutResult :=
  match findById store userId with
  | none => { status := 404, error := some "User not found", store := store }
  | some user =>
    { status := 200, error := none, store := saveUser store { user with active := false } }

/-- The fixed identity `POST /create-admin` creates
(`src/routes/auth.js:501-506`): name `Admin User`, email `vijay@test.ac.in`,
password `vijay123`, role admin. -/
def createAdminIdentity (newId : UserId) : Identity :=
  { id := newId, name := "Admin User", email := "vijay@test.ac.in",
    passwordHash := hashPassword "vijay123", role := Role.admin,
    active := true, passwordChangedAt := none }

/-- `POST /create-admin` (`src/routes/auth.js:492-522`): mounted with no
auth middleware and no role guard, so the handler is a function of the
store alone; 400 when an admin already exists, otherwise create the fixed
admin identity. -/
def createAdmin (store : Store) (newId : UserId) : MutResult :=
  match findAdmin store with
  | some _ => { status := 400, error := some "Admin user already exists", store := store }
  | none => { status := 201, error := none, store := store ++ [createAdminIdentity newId] }

/-- The fixed identity the startup bootstrap creates (`connectDB`, server
entry file lines 94-106): email `admin@test.ac.in`, password `admin123`,
role admin. -/
def bootstrapAdminIdentity (newId : UserId) : Identity :=
  { id := newId, name := "Admin User", email := "admin@test.ac.in",
    passwordHash := hashPassword "admin123", role := Role.admin,
    active := true, passwordChangedAt := none }

/-- The default-admin bootstrap inside `connectDB`: create the fixed admin
identity when no admin exists, otherwise leave the store alone.  Runs at
process start, before any request, with no credentials involved. -/
def connectDBBootstrap (store : Store) (newId : UserId) : Store :=
  match findAdmin store with
  | some _ => store
  | none => store ++ [bootstrapAdminIdentity newId]

/-! Helper lemmas shared by the claim theorems. -/

/-- An identity found by id carries that id. -/
theorem findById_id_eq {s : Store} {i : UserId} {u : Identity}
    (h : findById s i = some u) : u.id = i := by
  have := List.find?_some h
  simpa using this

/-- Saving a record whose id is the one looked up makes it the record that a
subsequent lookup by that id returns. -/
theorem findById_saveUser {s : Store} {i : UserId} {u : Identity} (w : Identity)
    (h : findById s i = some u) (hw : w.id = i) :
    findById (saveUser s w) i = some w := by
  induction s with
  | nil => simp [findById] at h
  | cons a t ih =>
    unfold findById at h
    unfold findById saveUser
    simp only [List.map_cons]
    by_cases ha : a.id = i
    · have haw : (if a.id == w.id then w else a) = w := by
        simp [hw, ha]
      rw [haw, List.find?_cons_of_pos _ (by simpa using hw)]
    · rw [List.find?_cons_of_neg _ (by simpa using ha)] at h
      have haw : (if a.id == w.id then w else a) = a := by
        simp [hw, beq_iff_eq, ha]
      rw [haw, List.find?_cons_of_neg _ (by simpa using ha)]
      exact ih h

/-- A successful `jwt.verify` returns the token's own payload. -/
theorem jwtVerify_ok_eq {t : Token} {s : String} {now : Nat} {uid : UserId} {iat : Nat}
    (h : jwtVerify t s now = VerifyResult.ok uid iat) : uid = t.userId ∧ iat = t.iat := by
  unfold jwtVerify at h
  split at h
  · simp at h
  · split at h
    · simp at h
    · cases h
      exact ⟨rfl, rfl⟩

/-- A password passing the registration regex also satisfies the spec's
strength predicate (the regex is the predicate plus an alphabet
restriction). -/
theorem passwordRegexTest_strong {p : String} (h : passwordRegexTest p = true) :
    specStrong p = true := by
  simp only [passwordRegexTest, Bool.and_eq_true] at h
  simp only [specStrong, Bool.and_eq_true]
  exact ⟨⟨⟨⟨h.1.1.1.1.1, h.1.1.1.2⟩, h.1.1.2⟩, h.1.2⟩, h.2⟩

/-- A token verified with its own secret before expiry decodes to its own
payload. -/
theorem jwtVerify_self (t : Token) (now : Nat) (h : now < t.exp) :
    jwtVerify t t.secret now = VerifyResult.ok t.userId t.iat := by
  unfold jwtVerify
  rw [if_neg (by simp), if_neg (by omega)]

/-- A token verified with a different secret fails with an invalid
signature. -/
theorem jwtVerify_wrong_secret (t : Token) (s : String) (now : Nat) (h : t.secret ≠ s) :
    jwtVerify t s now = VerifyResult.err "invalid signature" := by
  unfold jwtVerify
  rw [if_pos (by simpa using h)]

/-- C4: under the precondition that the access and refresh secrets differ,
issuing a token of either kind and immediately verifying it as its own kind
yields the original subject id, while verifying it as the other kind fails
with an invalid signature. -/
theorem c4_kind_separation (cfg : Config) (s : UserId) (now : Nat)
    (hsec : cfg.jwtSecret ≠ cfg.jwtRefreshSecret) :
    verifyAsKind cfg (generateToken cfg s TokenType.access now) TokenType.access now =
      VerifyResult.ok s now ∧
    verifyAsKind cfg (generateToken cfg s TokenType.access now) TokenType.refresh now =
      VerifyResult.err "invalid signature" ∧
    verifyAsKind cfg (generateToken cfg s TokenType.refresh now) TokenType.refresh now =
      VerifyResult.ok s now ∧
    verifyAsKind cfg (generateToken cfg s TokenType.refresh now) TokenType.access now =
      VerifyResult.err "invalid signature" := by
  have hsec' : cfg.jwtRefreshSecret ≠ cfg.jwtSecret := fun h => hsec h.symm
  refine ⟨?_, ?_, ?_, ?_⟩
  · exact jwtVerify_self ⟨s, now, now + 3600, cfg.jwtSecret⟩ now
      (by show now < now + 3600; omega)
  · exact jwtVerify_wrong_secret ⟨s, now, now + 3600, cfg.jwtSecret⟩
      cfg.jwtRefreshSecret now hsec
  · exact jwtVerify_self ⟨s, now, now + 7 * 24 * 3600, cfg.jwtRefreshSecret⟩ now
      (by show now < now + 7 * 24 * 3600; omega)
  · exact jwtVerify_wrong_secret ⟨s, now, now + 7 * 24 * 3600, cfg.jwtRefreshSecret⟩
      cfg.jwtSecret now hsec'

/-- C4 witness: a concrete configuration with distinct secrets. -/
theorem c4_witness :
    verifyAsKind ⟨"acc", "ref"⟩ (generateToken ⟨"acc", "ref"⟩ 5 TokenType.access 100)
        TokenType.access 100 = VerifyResult.ok 5 100 ∧
    verifyAsKind ⟨"acc", "ref"⟩ (generateToken ⟨"acc", "ref"⟩ 5 TokenType.access 100)
        TokenType.refresh 100 = VerifyResult.err "invalid signature" ∧
    verifyAsKind ⟨"acc", "ref"⟩ (generateToken ⟨"acc", "ref"⟩ 5 TokenType.refresh 100)
        TokenType.refresh 100 = VerifyResult.ok 5 100 ∧
    verifyAsKind ⟨"acc", "ref"⟩ (generateToken ⟨"acc", "ref"⟩ 5 TokenType.refresh 100)
        TokenType.access 100 = VerifyResult.err "invalid signature" :=
  c4_kind_separation ⟨"acc", "ref"⟩ 5 100 (by decide)

/-- C6: a `PATCH /me` body containing any field name outside
`{name, email, password}` fails wholesale with 400 `Invalid updates` and the
store is left completely unchanged. -/
theorem c6_patchMe_rejects_unknown_fields (store : Store) (callerId : UserId) (body : Body)
    (now : Nat) (k : String) (hk : k ∈ body.map Prod.fst) (hbad : k ∉ allowedUpdatesMe) :
    patchMe store callerId body now =
      { status := 400, error := some "Invalid updates", store := store } := by
  have hvo : ¬ (isValidOperation body allowedUpdatesMe = true) := by
    simp only [isValidOperation, List.all_eq_true]
    intro hall
    exact hbad (by simpa using hall k hk)
  have hfalse : isValidOperation body allowedUpdatesMe = false := by
    cases hvo' : isValidOperation body allowedUpdatesMe
    · rfl
    · exact absurd hvo' hvo
  simp [patchMe, hfalse]

/-- C6 witness: a body carrying the disallowed field `role`. -/
theorem c6_witness :
    patchMe [] 0 [("role", Value.vStr "admin")] 0 =
      { status := 400, error := some "Invalid updates", store := [] } :=
  c6_patchMe_rejects_unknown_fields [] 0 [("role", Value.vStr "admin")] 0 "role"
    (by simp) (by simp [allowedUpdatesMe])

/-- C7: a Register request whose password fails the spec's strength
predicate (length at least 8 with an uppercase letter, a lowercase letter, a
digit, and a symbol from the fixed set) answers 400 and leaves the store
unchanged — no identity is created. -/
theorem c7_register_rejects_weak_password (store : Store)
    (name email password : Option String) (role : Option Role) (newId : UserId)
    (hweak : specStrong (password.getD "") = false) :
    (register store name email password role newId).status = 400 ∧
    (register store name email password role newId).store = store := by
  have hreg : passwordRegexTest (password.getD "") = false := by
    cases hr : passwordRegexTest (password.getD "")
    · rfl
    · exact absurd hweak (by simp [passwordRegexTest_strong hr])
  by_cases hf : (falsy name || falsy email || falsy password) = true
  · simp [register, hf]
  · simp [register, hf, hreg]

/-- C7 witness: the weak password `abc` is rejected and no record appears. -/
theorem c7_witness :
    (register [] (some "N") (some "n@x.io") (some "abc") none 1).status = 400 ∧
    (register [] (some "N") (some "n@x.io") (some "abc") none 1).store = [] :=
  c7_register_rejects_weak_password [] (some "N") (some "n@x.io") (some "abc") none 1
    (by decide)

/-- C9: `POST /create-admin` is a function of the store alone (no auth
middleware, no role guard in its chain): with no admin present, any request
creates the fixed admin identity whose hard-coded password `vijay123` fails
the registration strength predicate (and the regex); with an admin present
it answers 400 and the store is unchanged.  The startup bootstrap likewise
creates a fixed admin with password `admin123`, which also fails the
predicate. -/
theorem c9_create_admin (store : Store) (newId : UserId) :
    (findAdmin store = none →
      createAdmin store newId =
        { status := 201, error := none, store := store ++ [createAdminIdentity newId] } ∧
      connectDBBootstrap store newId = store ++ [bootstrapAdminIdentity newId]) ∧
    (∀ a, findAdmin store = some a →
      createAdmin store newId =
        { status := 400, error := some "Admin user already exists", store := store }) ∧
    (createAdminIdentity newId).role = Role.admin ∧
    (createAdminIdentity newId).passwordHash = hashPassword "vijay123" ∧
    specStrong "vijay123" = false ∧
    passwordRegexTest "vijay123" = false ∧
    (bootstrapAdminIdentity newId).role = Role.admin ∧
    (bootstrapAdminIdentity newId).passwordHash = hashPassword "admin123" ∧
    specStrong "admin123" = false := by
  refine ⟨?_, ?_, rfl, rfl, by decide, by decide, rfl, rfl, by decide⟩
  · intro h
    exact ⟨by simp [createAdmin, h], by simp [connectDBBootstrap, h]⟩
  · intro a h
    simp [createAdmin, h]

/-- C9 witness: on the empty store the endpoint creates the admin; on a
store already holding that admin it fails with 400 and changes nothing. -/
theorem c9_witness :
    createAdmin [] 0 =
      { status := 201, error := none, store := [createAdminIdentity 0] } ∧
    createAdmin [createAdminIdentity 0] 1 =
      { status := 400, error := some "Admin user already exists",
        store := [createAdminIdentity 0] } ∧
    connectDBBootstrap [] 0 = [bootstrapAdminIdentity 0] :=
  ⟨((c9_create_admin [] 0).1 rfl).1,
   (c9_create_admin [createAdminIdentity 0] 1).2.1 (createAdminIdentity 0) rfl,
   ((c9_create_admin [] 0).1 rfl).2⟩

/-- A correctly signed token verified after expiry fails with the expiry
error. -/
theorem jwtVerify_expired (t : Token) (s : String) (now : Nat)
    (hs : t.secret = s) (h : t.exp ≤ now) :
    jwtVerify t s now = VerifyResult.err "jwt expired" := by
  unfold jwtVerify
  rw [if_neg (by simp [hs]), if_pos h]

/-- A correctly signed unexpired token decodes to its own payload. -/
theorem jwtVerify_ok (t : Token) (s : String) (now : Nat)
    (hs : t.secret = s) (h : now < t.exp) :
    jwtVerify t s now = VerifyResult.ok t.userId t.iat := by
  unfold jwtVerify
  rw [if_neg (by simp [hs]), if_neg (by omega)]

/-- C3 counterexample: against the claim that an expired-but-signed token
and a forged token receive identical rejections, the middleware answers 401
in both cases but with different messages (`jwt expired` vs
`invalid signature`), because the catch block echoes `error.message`. -/
theorem c3_counterexample :
    authStatus (auth ⟨"s", "r"⟩ [] (AuthHeader.bearer ⟨1, 0, 5, "s"⟩) 10) = 401 ∧
    authStatus (auth ⟨"s", "r"⟩ [] (AuthHeader.bearer ⟨1, 0, 50, "x"⟩) 10) = 401 ∧
    authMessage (auth ⟨"s", "r"⟩ [] (AuthHeader.bearer ⟨1, 0, 5, "s"⟩) 10) ≠
      authMessage (auth ⟨"s", "r"⟩ [] (AuthHeader.bearer ⟨1, 0, 50, "x"⟩) 10) := by
  refine ⟨rfl, rfl, by decide⟩

/-- C3 amended: an expired correctly-signed access token and a token with an
invalid signature are both rejected with status 401, but the response
messages differ (`jwt expired` vs `invalid signature`), so the caller can
distinguish the two causes. -/
theorem c3_expired_vs_forged (cfg : Config) (store : Store) (now : Nat) (t1 t2 : Token)
    (h1 : t1.secret = cfg.jwtSecret) (he : t1.exp ≤ now)
    (h2 : t2.secret ≠ cfg.jwtSecret) :
    auth cfg store (AuthHeader.bearer t1) now = AuthOutcome.reject 401 "jwt expired" ∧
    auth cfg store (AuthHeader.bearer t2) now =
      AuthOutcome.reject 401 "invalid signature" := by
  constructor
  · simp [auth, jwtVerify_expired t1 cfg.jwtSecret now h1 he]
  · simp [auth, jwtVerify_wrong_secret t2 cfg.jwtSecret now h2]

/-- C3 witness: concrete expired and forged tokens. -/
theorem c3_witness :
    auth ⟨"s", "r"⟩ [] (AuthHeader.bearer ⟨1, 0, 5, "s"⟩) 10 =
      AuthOutcome.reject 401 "jwt expired" ∧
    auth ⟨"s", "r"⟩ [] (AuthHeader.bearer ⟨1, 0, 50, "x"⟩) 10 =
      AuthOutcome.reject 401 "invalid signature" :=
  c3_expired_vs_forged ⟨"s", "r"⟩ [] 10 ⟨1, 0, 5, "s"⟩ ⟨1, 0, 50, "x"⟩ rfl
    (by decide) (by decide)

/-- C2 counterexample: against the claim that nonexistent email, deactivated
identity, and wrong password all receive the identical generic message, a
deactivated identity presenting its correct password receives
`Account is deactivated`, while a nonexistent email receives
`Invalid credentials` — the deactivated cause is distinguishable. -/
theorem c2_counterexample :
    (login ⟨"s", "r"⟩ [⟨1, "d", "d@x", hashPassword "Aa1@aaaa", Role.user, false, none⟩]
        (some "d@x") (some "Aa1@aaaa") 0).error = some "Account is deactivated" ∧
    (login ⟨"s", "r"⟩ [⟨1, "d", "d@x", hashPassword "Aa1@aaaa", Role.user, false, none⟩]
        (some "nobody@x") (some "Aa1@aaaa") 0).error = some "Invalid credentials" ∧
    (some "Account is deactivated" : Option String) ≠ some "Invalid credentials" := by
  refine ⟨rfl, rfl, by decide⟩

/-- C2 amended: all three failing login causes answer status 401; a
nonexistent email and a wrong password both receive the identical generic
`Invalid credentials`, but an existing deactivated identity receives the
distinct message `Account is deactivated`. -/
theorem c2_login_error_coalescing (cfg : Config) (store : Store) (now : Nat)
    (e1 p1 e2 p2 e3 p3 : String) (u2 u3 : Identity)
    (he1 : e1 ≠ "") (hp1 : p1 ≠ "") (h1 : findByEmail store e1 = none)
    (he2 : e2 ≠ "") (hp2 : p2 ≠ "") (h2 : findByEmail store e2 = some u2)
    (hu2 : u2.active = false)
    (he3 : e3 ≠ "") (hp3 : p3 ≠ "") (h3 : findByEmail store e3 = some u3)
    (hu3 : u3.active = true) (hpw : comparePassword u3 p3 = false) :
    login cfg store (some e1) (some p1) now =
      { status := 401, error := some "Invalid credentials",
        accessToken := none, refreshCookie := none } ∧
    login cfg store (some e2) (some p2) now =
      { status := 401, error := some "Account is deactivated",
        accessToken := none, refreshCookie := none } ∧
    login cfg store (some e3) (some p3) now =
      { status := 401, error := some "Invalid credentials",
        accessToken := none, refreshCookie := none } := by
  refine ⟨?_, ?_, ?_⟩
  · unfold login
    rw [if_neg (by simp [falsy, he1, hp1])]
    simp [h1]
  · unfold login
    rw [if_neg (by simp [falsy, he2, hp2])]
    simp [h2, hu2]
  · unfold login
    rw [if_neg (by simp [falsy, he3, hp3])]
    simp [h3, hu3, hpw]

/-- C2 witness: a store with one deactivated and one active identity. -/
theorem c2_witness :
    login ⟨"s", "r"⟩
        [⟨1, "d", "d@x", hashPassword "Aa1@aaaa", Role.user, false, none⟩,
         ⟨2, "a", "a@x", hashPassword "Bb2@bbbb", Role.user, true, none⟩]
        (some "nobody@x") (some "pw") 0 =
      { status := 401, error := some "Invalid credentials",
        accessToken := none, refreshCookie := none } ∧
    login ⟨"s", "r"⟩
        [⟨1, "d", "d@x", hashPassword "Aa1@aaaa", Role.user, false, none⟩,
         ⟨2, "a", "a@x", hashPassword "Bb2@bbbb", Role.user, true, none⟩]
        (some "d@x") (some "Aa1@aaaa") 0 =
      { status := 401, error := some "Account is deactivated",
        accessToken := none, refreshCookie := none } ∧
    login ⟨"s", "r"⟩
        [⟨1, "d", "d@x", hashPassword "Aa1@aaaa", Role.user, false, none⟩,
         ⟨2, "a", "a@x", hashPassword "Bb2@bbbb", Role.user, true, none⟩]
        (some "a@x") (some "wrong") 0 =
      { status := 401, error := some "Invalid credentials",
        accessToken := none, refreshCookie := none } :=
  c2_login_error_coalescing ⟨"s", "r"⟩
    [⟨1, "d", "d@x", hashPassword "Aa1@aaaa", Role.user, false, none⟩,
     ⟨2, "a", "a@x", hashPassword "Bb2@bbbb", Role.user, true, none⟩] 0
    "nobody@x" "pw" "d@x" "Aa1@aaaa" "a@x" "wrong"
    ⟨1, "d", "d@x", hashPassword "Aa1@aaaa", Role.user, false, none⟩
    ⟨2, "a", "a@x", hashPassword "Bb2@bbbb", Role.user, true, none⟩
    (by decide) (by decide) rfl
    (by decide) (by decide) rfl rfl
    (by decide) (by decide) rfl rfl (by decide)

/-- C1 counterexample: an identity whose password changed at time 100 and a
refresh token issued at time 0 (before the change), correctly signed and
unexpired at time 10 — the Refresh operation accepts it and mints a new
access token, contradicting the claim that Refresh rejects tokens issued
before `passwordChangedAt`. -/
theorem c1_counterexample :
    (refreshTokenRoute ⟨"s", "r"⟩
        [⟨1, "n", "e@x", hashPassword "Aa1@aaaa", Role.user, true, some 100⟩]
        (some ⟨1, 0, 1000, "r"⟩) 10).status = 200 ∧
    (refreshTokenRoute ⟨"s", "r"⟩
        [⟨1, "n", "e@x", hashPassword "Aa1@aaaa", Role.user, true, some 100⟩]
        (some ⟨1, 0, 1000, "r"⟩) 10).accessToken = some ⟨1, 10, 3610, "s"⟩ := by
  refine ⟨rfl, rfl⟩

/-- C1 amended: for a token issued before the identity's
`passwordChangedAt`, the Auth Middleware rejects the stale access token with
401, but the Refresh operation never consults `passwordChangedAt`: a stale
but correctly signed, unexpired refresh token whose subject resolves to an
active identity succeeds with 200 and a fresh access token. -/
theorem c1_stale_token_handling (cfg : Config) (store : Store) (now pc : Nat)
    (t rt : Token) (u v : Identity)
    (ht : t.secret = cfg.jwtSecret) (hexp : now < t.exp)
    (hu : findActiveById store t.userId = some u)
    (hpc : u.passwordChangedAt = some pc) (hiat : t.iat < pc)
    (hrt : rt.secret = cfg.jwtRefreshSecret) (hrexp : now < rt.exp)
    (hv : findById store rt.userId = some v) (hva : v.active = true)
    (_hvpc : v.passwordChangedAt = some pc) (_hriat : rt.iat < pc) :
    auth cfg store (AuthHeader.bearer t) now =
      AuthOutcome.reject 401 "User recently changed password. Please log in again" ∧
    refreshTokenRoute cfg store (some rt) now =
      { status := 200, error := none,
        accessToken := some (generateToken cfg v.id TokenType.access now) } := by
  constructor
  · simp [auth, jwtVerify_ok t cfg.jwtSecret now ht hexp, hu, hpc,
      changedPasswordAfter, hiat]
  · simp [refreshTokenRoute, jwtVerify_ok rt cfg.jwtRefreshSecret now hrt hrexp, hv, hva]

/-- C1 witness: concrete stale access and refresh tokens over a one-identity
store. -/
theorem c1_witness :
    auth ⟨"s", "r"⟩ [⟨1, "n", "e@x", hashPassword "Aa1@aaaa", Role.user, true, some 100⟩]
        (AuthHeader.bearer ⟨1, 0, 1000, "s"⟩) 10 =
      AuthOutcome.reject 401 "User recently changed password. Please log in again" ∧
    refreshTokenRoute ⟨"s", "r"⟩
        [⟨1, "n", "e@x", hashPassword "Aa1@aaaa", Role.user, true, some 100⟩]
        (some ⟨1, 0, 1000, "r"⟩) 10 =
      { status := 200, error := none, accessToken := some ⟨1, 10, 3610, "s"⟩ } :=
  c1_stale_token_handling ⟨"s", "r"⟩
    [⟨1, "n", "e@x", hashPassword "Aa1@aaaa", Role.user, true, some 100⟩] 10 100
    ⟨1, 0, 1000, "s"⟩ ⟨1, 0, 1000, "r"⟩
    ⟨1, "n", "e@x", hashPassword "Aa1@aaaa", Role.user, true, some 100⟩
    ⟨1, "n", "e@x", hashPassword "Aa1@aaaa", Role.user, true, some 100⟩
    rfl (by decide) rfl rfl (by decide) rfl (by decide) rfl rfl rfl (by decide)

/-- C5: a deactivated identity can never authenticate — login for its email
fails with 401, the middleware rejects with 401 every bearer token whose
subject id resolves only to inactive records, Refresh rejects with 401 every
refresh token resolving to it, and the middleware proceeds only with an
identity whose `active` is true. -/
theorem c5_inactive_terminal (cfg : Config) (store : Store) (now : Nat)
    (u : Identity) (e p : String) (t rt : Token) (h : AuthHeader)
    (he : e ≠ "") (hp : p ≠ "") :
    (findByEmail store e = some u → u.active = false →
      (login cfg store (some e) (some p) now).status = 401 ∧
      (login cfg store (some e) (some p) now).accessToken = none) ∧
    ((∀ w ∈ store, w.id = t.userId → w.active = false) →
      authStatus (auth cfg store (AuthHeader.bearer t) now) = 401) ∧
    (findById store rt.userId = some u → u.active = false →
      (refreshTokenRoute cfg store (some rt) now).status = 401) ∧
    (∀ w tok, auth cfg store h now = AuthOutcome.proceed w tok → w.active = true) := by
  refine ⟨?_, ?_, ?_, ?_⟩
  · intro hfe hua
    unfold login
    rw [if_neg (by simp [falsy, he, hp])]
    simp [hfe, hua]
  · intro hall
    cases hjv : jwtVerify t cfg.jwtSecret now with
    | err m => simp [auth, hjv, authStatus]
    | ok uid iat =>
      obtain ⟨huid, -⟩ := jwtVerify_ok_eq hjv
      have hnone : findActiveById store uid = none := by
        rw [huid]
        unfold findActiveById
        apply List.find?_eq_none.mpr
        intro w hw hcon
        simp only [Bool.and_eq_true, beq_iff_eq] at hcon
        have := hall w hw hcon.1
        rw [this] at hcon
        exact Bool.false_ne_true hcon.2
      simp [auth, hjv, hnone, authStatus]
  · intro hfid hua
    cases hjv : jwtVerify rt cfg.jwtRefreshSecret now with
    | err m => simp [refreshTokenRoute, hjv]
    | ok uid iat =>
      obtain ⟨huid, -⟩ := jwtVerify_ok_eq hjv
      rw [huid] at hjv
      simp [refreshTokenRoute, hjv, hfid, hua]
  · intro w tok hpr
    cases h with
    | missing => simp [auth] at hpr
    | malformed => simp [auth] at hpr
    | bearer t' =>
      cases hjv : jwtVerify t' cfg.jwtSecret now with
      | err m => simp [auth, hjv] at hpr
      | ok uid iat =>
        cases hfa : findActiveById store uid with
        | none => simp [auth, hjv, hfa] at hpr
        | some x =>
          have hfa' : store.find? (fun v => v.id == uid && v.active) = some x := hfa
          have hx := List.find?_some hfa'
          simp only [Bool.and_eq_true, beq_iff_eq] at hx
          by_cases hst : (x.passwordChangedAt.isSome && changedPasswordAfter x iat) = true
          · simp [auth, hjv, hfa, hst] at hpr
          · simp [auth, hjv, hfa, hst] at hpr
            rw [← hpr.1]
            exact hx.2

/-- C5 witness: a store holding one deactivated identity. -/
theorem c5_witness :
    (login ⟨"s", "r"⟩ [⟨1, "n", "e@x", hashPassword "Aa1@aaaa", Role.user, false, none⟩]
        (some "e@x") (some "Aa1@aaaa") 0).status = 401 ∧
    authStatus (auth ⟨"s", "r"⟩
        [⟨1, "n", "e@x", hashPassword "Aa1@aaaa", Role.user, false, none⟩]
        (AuthHeader.bearer ⟨1, 0, 100, "s"⟩) 0) = 401 ∧
    (refreshTokenRoute ⟨"s", "r"⟩
        [⟨1, "n", "e@x", hashPassword "Aa1@aaaa", Role.user, false, none⟩]
        (some ⟨1, 0, 100, "r"⟩) 0).status = 401 := by
  have T := c5_inactive_terminal ⟨"s", "r"⟩
    [⟨1, "n", "e@x", hashPassword "Aa1@aaaa", Role.user, false, none⟩] 0
    ⟨1, "n", "e@x", hashPassword "Aa1@aaaa", Role.user, false, none⟩
    "e@x" "Aa1@aaaa" ⟨1, 0, 100, "s"⟩ ⟨1, 0, 100, "r"⟩ AuthHeader.missing
    (by decide) (by decide)
  exact ⟨(T.1 rfl rfl).1, T.2.1 (by decide), T.2.2.1 rfl rfl⟩

/-- C8: the admin delete route is a soft delete — for any identity found by
id, it answers 200, keeps the store's record count, and afterwards the same
id retrieves the same record with only `active` flipped to false (id, name,
email, password hash, role, and `passwordChangedAt` unchanged). -/
theorem c8_delete_is_soft (store : Store) (userId : UserId) (u : Identity)
    (h : findById store userId = some u) :
    (deleteUserRoute store userId).status = 200 ∧
    (deleteUserRoute store userId).store.length = store.length ∧
    findById (deleteUserRoute store userId).store userId =
      some { u with active := false } := by
  have hid : u.id = userId := findById_id_eq h
  unfold deleteUserRoute
  rw [h]
  refine ⟨rfl, ?_, ?_⟩
  · simp [saveUser]
  · exact findById_saveUser _ h hid

/-- C8 witness: deleting the only identity of a concrete store. -/
theorem c8_witness :
    (deleteUserRoute [⟨1, "n", "e@x", hashPassword "Aa1@aaaa", Role.user, true, none⟩]
        1).status = 200 ∧
    (deleteUserRoute [⟨1, "n", "e@x", hashPassword "Aa1@aaaa", Role.user, true, none⟩]
        1).store.length =
      ([⟨1, "n", "e@x", hashPassword "Aa1@aaaa", Role.user, true, none⟩] : Store).length ∧
    findById (deleteUserRoute
        [⟨1, "n", "e@x", hashPassword "Aa1@aaaa", Role.user, true, none⟩] 1).store 1 =
      some ⟨1, "n", "e@x", hashPassword "Aa1@aaaa", Role.user, false, none⟩ :=
  c8_delete_is_soft [⟨1, "n", "e@x", hashPassword "Aa1@aaaa", Role.user, true, none⟩] 1
    ⟨1, "n", "e@x", hashPassword "Aa1@aaaa", Role.user, true, none⟩ rfl

/-- C10: neither `PATCH /me` nor `PATCH /users/:userId` applies the password
strength predicate — with all body field names in the respective allow-list
and the target identity present, both answer 200 for every body, and a body
setting `password` to an arbitrary value `pw` (no strength hypothesis at
all) stores `pw`'s hash with `passwordChangedAt` updated. -/
theorem c10_patch_skips_strength_check (store : Store) (callerId targetId : UserId)
    (u v : Identity) (body : Body) (now : Nat) (pw : String)
    (hme : findById store callerId = some u)
    (hok : isValidOperation body allowedUpdatesMe = true)
    (hadm : findById store targetId = some v)
    (hokA : isValidOperation body allowedUpdatesAdmin = true) :
    (patchMe store callerId body now).status = 200 ∧
    (patchUserAdmin store targetId body now).status = 200 ∧
    patchMe store callerId [("password", Value.vStr pw)] now =
      { status := 200, error := none,
        store := saveUser store { u with passwordHash := hashPassword pw,
                                         passwordChangedAt := some now } } ∧
    findById (patchMe store callerId [("password", Value.vStr pw)] now).store callerId =
      some { u with passwordHash := hashPassword pw, passwordChangedAt := some now } ∧
    patchUserAdmin store targetId [("password", Value.vStr pw)] now =
      { status := 200, error := none,
        store := saveUser store { v with passwordHash := hashPassword pw,
                                         passwordChangedAt := some now } } := by
  have hid : u.id = callerId := findById_id_eq hme
  have hvo1 : isValidOperation [("password", Value.vStr pw)] allowedUpdatesMe = true := rfl
  have hvo2 : isValidOperation [("password", Value.vStr pw)] allowedUpdatesAdmin = true := rfl
  have h3 : patchMe store callerId [("password", Value.vStr pw)] now =
      { status := 200, error := none,
        store := saveUser store { u with passwordHash := hashPassword pw,
                                         passwordChangedAt := some now } } := by
    unfold patchMe
    rw [if_neg (by simp [hvo1]), hme]
    rfl
  refine ⟨?_, ?_, h3, ?_, ?_⟩
  · unfold patchMe
    rw [if_neg (by simp [hok]), hme]
  · unfold patchUserAdmin
    rw [if_neg (by simp [hokA]), hadm]
  · rw [h3]
    exact findById_saveUser _ hme hid
  · unfold patchUserAdmin
    rw [if_neg (by simp [hvo2]), hadm]
    rfl

/-- C10 witness: the one-character password `x` (failing every strength
rule) is accepted and stored by both patch routes. -/
theorem c10_witness :
    (patchMe [⟨1, "n", "e@x", hashPassword "Aa1@aaaa", Role.user, true, none⟩] 1
        [("name", Value.vStr "m")] 7).status = 200 ∧
    (patchUserAdmin [⟨1, "n", "e@x", hashPassword "Aa1@aaaa", Role.user, true, none⟩] 1
        [("name", Value.vStr "m")] 7).status = 200 ∧
    patchMe [⟨1, "n", "e@x", hashPassword "Aa1@aaaa", Role.user, true, none⟩] 1
        [("password", Value.vStr "x")] 7 =
      { status := 200, error := none,
        store := saveUser [⟨1, "n", "e@x", hashPassword "Aa1@aaaa", Role.user, true, none⟩]
          ⟨1, "n", "e@x", hashPassword "x", Role.user, true, some 7⟩ } ∧
    findById (patchMe [⟨1, "n", "e@x", hashPassword "Aa1@aaaa", Role.user, true, none⟩] 1
        [("password", Value.vStr "x")] 7).store 1 =
      some ⟨1, "n", "e@x", hashPassword "x", Role.user, true, some 7⟩ ∧
    patchUserAdmin [⟨1, "n", "e@x", hashPassword "Aa1@aaaa", Role.user, true, none⟩] 1
        [("password", Value.vStr "x")] 7 =
      { status := 200, error := none,
        store := saveUser [⟨1, "n", "e@x", hashPassword "Aa1@aaaa", Role.user, true, none⟩]
          ⟨1, "n", "e@x", hashPassword "x", Role.user, true, some 7⟩ } :=
  c10_patch_skips_strength_check
    [⟨1, "n", "e@x", hashPassword "Aa1@aaaa", Role.user, true, none⟩] 1 1
    ⟨1, "n", "e@x", hashPassword "Aa1@aaaa", Role.user, true, none⟩
    ⟨1, "n", "e@x", hashPassword "Aa1@aaaa", Role.user, true, none⟩
    [("name", Value.vStr "m")] 7 "x" rfl (by decide) rfl (by decide)
